import Mathlib

set_option autoImplicit false

namespace PoultryPatrol

/-!
Shallow embedding of the agent-simulation core of `src/game.js` from the
PoultryPatrol repository.  Times, positions and timers are rationals; the
JavaScript test `p.distanceTo(q) < r` is embedded as `distSq p q < r ^ 2`,
which is equivalent for nonnegative `r`.  Velocities that the source builds
as `normalize(v).multiplyScalar(k)` are represented by the un-normalised
direction vector `v` together with the scalar magnitude `k`, since the
normalising factor is irrational; every property below concerns only the
direction and the magnitude.
-/

/-- Three-dimensional point or vector with rational coordinates
(embeds `THREE.Vector3` as used by the simulation logic). -/
structure Vec3 where
  x : ℚ
  y : ℚ
  z : ℚ
  deriving DecidableEq

/-- Squared Euclidean distance; `distanceTo p q < r` in the source becomes
`distSq p q < r ^ 2` here. -/
def distSq (p q : Vec3) : ℚ :=
  (p.x - q.x) ^ 2 + (p.y - q.y) ^ 2 + (p.z - q.z) ^ 2

/-! ## Bird out-of-bounds grace (game.js 1985-2010) -/

/-- Bird fields involved in the boundary check at the end of
`Bird.update` (game.js 1780-1782 for the fields, 1985-2010 for the logic).
`ranAway` is the global `gameState.ranAway` counter threaded through. -/
structure OobState where
  inBounds : Bool
  outOfBoundsTimer : ℚ
  hasEscaped : Bool
  ranAway : ℕ
  deriving DecidableEq

/-- In-bounds test of game.js 1987-1990: strictly inside the square of
half-width 30. -/
def inBoundsAt (x z : ℚ) : Bool :=
  (-30 < x) && (x < 30) && (-30 < z) && (z < 30)

/-- One evaluation of the boundary block of `Bird.update`
(game.js 1985-2006).  `inside` is the freshly computed `inBounds` value;
the returned Bool is the removal signal (`return true` at game.js 2000). -/
def oobStep (inside : Bool) (delta : ℚ) (s : OobState) : OobState × Bool :=
  match inside with
  | false =>
    let t := s.outOfBoundsTimer + delta
    if 20 ≤ t ∧ s.hasEscaped = false then
      ({ s with inBounds := false, outOfBoundsTimer := t, hasEscaped := true,
                ranAway := s.ranAway + 1 }, true)
    else
      ({ s with inBounds := false, outOfBoundsTimer := t }, false)
  | true =>
    ({ s with inBounds := true, outOfBoundsTimer := 0, hasEscaped := false }, false)

/-- A run of frames during which the bird stays continuously out of bounds;
returns the final state and the number of removal signals emitted. -/
def oobRun (deltas : List ℚ) (s : OobState) : OobState × ℕ :=
  match deltas with
  | [] => (s, 0)
  | d :: ds =>
    let r := oobStep false d s
    let r2 := oobRun ds r.1
    (r2.1, (if r.2 then 1 else 0) + r2.2)

theorem oobRun_escaped (deltas : List ℚ) (s : OobState) (h : s.hasEscaped = true) :
    (oobRun deltas s).2 = 0 := by
  induction deltas generalizing s with
  | nil => simp [oobRun]
  | cons d ds ih =>
    have hcond : ¬ (20 ≤ s.outOfBoundsTimer + d ∧ s.hasEscaped = false) := by
      simp [h]
    simp only [oobRun, oobStep, if_neg hcond]
    simpa using
      ih { s with inBounds := false, outOfBoundsTimer := s.outOfBoundsTimer + d } h

theorem list_sum_nonneg (ds : List ℚ) (h : ∀ d ∈ ds, 0 ≤ d) : 0 ≤ ds.sum := by
  induction ds with
  | nil => simp
  | cons d ds ih =>
    have h1 : 0 ≤ d := h d (by simp)
    have h2 : 0 ≤ ds.sum := ih (fun x hx => h x (by simp [hx]))
    simp only [List.sum_cons]
    linarith

theorem oobRun_count (deltas : List ℚ) (s : OobState)
    (hpos : ∀ d ∈ deltas, 0 ≤ d) (hesc : s.hasEscaped = false) :
    (oobRun deltas s).2 =
      if deltas = [] then 0
      else if 20 ≤ s.outOfBoundsTimer + deltas.sum then 1 else 0 := by
  induction deltas generalizing s with
  | nil => simp [oobRun]
  | cons d ds ih =>
    have hd : 0 ≤ d := hpos d (by simp)
    have hds : ∀ x ∈ ds, 0 ≤ x := fun x hx => hpos x (by simp [hx])
    have hsum : 0 ≤ ds.sum := list_sum_nonneg ds hds
    by_cases hfire : 20 ≤ s.outOfBoundsTimer + d
    · -- the grace threshold is reached at this very step
      have hcond : 20 ≤ s.outOfBoundsTimer + d ∧ s.hasEscaped = false := ⟨hfire, hesc⟩
      simp only [oobRun, oobStep, if_pos hcond]
      have hrest := oobRun_escaped ds
        { s with inBounds := false, outOfBoundsTimer := s.outOfBoundsTimer + d,
                 hasEscaped := true, ranAway := s.ranAway + 1 } rfl
      rw [hrest]
      have htot : 20 ≤ s.outOfBoundsTimer + (d + ds.sum) := by linarith
      simp [List.sum_cons, htot]
    · -- not yet at the threshold: no signal this step
      have hcond : ¬ (20 ≤ s.outOfBoundsTimer + d ∧ s.hasEscaped = false) := by
        intro hc
        exact hfire hc.1
      simp only [oobRun, oobStep, if_neg hcond]
      have hih := ih { s with inBounds := false, outOfBoundsTimer := s.outOfBoundsTimer + d }
        hds hesc
      simp only [hih]
      by_cases hds0 : ds = []
      · subst hds0
        simp [if_neg hfire]
      · have harith : s.outOfBoundsTimer + d + ds.sum
            = s.outOfBoundsTimer + (d :: ds).sum := by
          simp only [List.sum_cons]
          ring
        simp only [if_neg hds0, if_neg (by simp : ¬ (d :: ds = [])), harith]
        simp

/-- C3: the out-of-bounds grace is monotonic.  Over any run of frames in
which the bird stays continuously outside the boundary (nonnegative deltas,
not previously counted as escaped), the ran-away removal signal is emitted
exactly once when the accumulated out-of-bounds time reaches 20 seconds and
never otherwise; and any update in which the bird is back inside the
boundary resets the grace timer to 0 (and the escaped flag). -/
theorem bird_oob_grace_monotonic :
    (∀ (deltas : List ℚ) (s : OobState),
      (∀ d ∈ deltas, 0 ≤ d) → s.hasEscaped = false →
      (oobRun deltas s).2 =
        if deltas = [] then 0
        else if 20 ≤ s.outOfBoundsTimer + deltas.sum then 1 else 0) ∧
    (∀ (d : ℚ) (s : OobState),
      oobStep true d s =
        ({ s with inBounds := true, outOfBoundsTimer := 0, hasEscaped := false },
          false)) := by
  constructor
  · exact fun deltas s h1 h2 => oobRun_count deltas s h1 h2
  · intro d s
    simp [oobStep]

/-- Witness for C3: a bird that is out of bounds for 12 then 9 seconds is
removed exactly once (12 + 9 = 21 exceeds the 20 second grace), and an
in-bounds frame resets the timer to 0. -/
theorem bird_oob_grace_monotonic_witness :
    (oobRun [12, 9] { inBounds := true, outOfBoundsTimer := 0,
                      hasEscaped := false, ranAway := 0 }).2 = 1 ∧
    (oobStep true 1 { inBounds := false, outOfBoundsTimer := 7,
                      hasEscaped := false, ranAway := 0 }).1.outOfBoundsTimer = 0 := by
  constructor
  · have h := bird_oob_grace_monotonic.1 [12, 9]
      { inBounds := true, outOfBoundsTimer := 0, hasEscaped := false, ranAway := 0 }
      (by norm_num) rfl
    norm_num at h
    exact h
  · have h := bird_oob_grace_monotonic.2 1
      { inBounds := false, outOfBoundsTimer := 7, hasEscaped := false, ranAway := 0 }
    rw [h]

/-! ## Egg availability cycle (game.js 3947-3986) -/

/-- Egg-cycle fields of `gameState` (game.js 580-583: `eggsAvailable`,
`eggTimer` initialised to 60, `eggAvailableTimer`) together with the
`collected` flag of each of the 8 nest boxes. -/
structure EggState where
  eggsAvailable : Bool
  eggTimer : ℚ
  eggAvailableTimer : ℚ
  collected : List Bool
  deriving DecidableEq

/-- One frame of the egg-cycle block of `animate` (game.js 3947-3986):
first the delay countdown (3948-3962, becoming available arms a 60 second
window), then the availability countdown (3965-3985, expiry re-arms the
60 second delay and clears every `collected` flag).  UI-only effects
(`coopGlow`, egg mesh visibility) are omitted. -/
def eggStep (delta : ℚ) (s : EggState) : EggState :=
  let s1 :=
    match s.eggsAvailable with
    | false =>
      let t := s.eggTimer - delta
      if t ≤ 0 then
        { s with eggsAvailable := true, eggTimer := t, eggAvailableTimer := 60 }
      else
        { s with eggTimer := t }
    | true => s
  match s1.eggsAvailable with
  | true =>
    let t2 := s1.eggAvailableTimer - delta
    if t2 ≤ 0 then
      { eggsAvailable := false, eggTimer := 60, eggAvailableTimer := t2,
        collected := s1.collected.map (fun _ => false) }
    else
      { s1 with eggAvailableTimer := t2 }
  | false => s1

/-- Frames folded over the egg cycle. -/
def eggRun (deltas : List ℚ) (s : EggState) : EggState :=
  match deltas with
  | [] => s
  | d :: ds => eggRun ds (eggStep d s)

theorem eggStep_waiting (d : ℚ) (s : EggState) (hav : s.eggsAvailable = false)
    (ht : 0 < s.eggTimer - d) :
    eggStep d s = { s with eggTimer := s.eggTimer - d } := by
  obtain ⟨av, t, w, c⟩ := s
  simp only at hav
  subst hav
  simp only [eggStep]
  rw [if_neg (by simp only at ht; linarith)]

theorem eggRun_waiting (deltas : List ℚ) (s : EggState)
    (hpos : ∀ d ∈ deltas, 0 ≤ d) (hav : s.eggsAvailable = false)
    (hlt : deltas.sum < s.eggTimer) :
    eggRun deltas s = { s with eggTimer := s.eggTimer - deltas.sum } := by
  induction deltas generalizing s with
  | nil =>
    simp only [eggRun, List.sum_nil, sub_zero]
  | cons d ds ih =>
    have hd : 0 ≤ d := hpos d (by simp)
    have hds : ∀ x ∈ ds, 0 ≤ x := fun x hx => hpos x (by simp [hx])
    have hsum : 0 ≤ ds.sum := list_sum_nonneg ds hds
    have hlt1 : d + ds.sum < s.eggTimer := by simpa using hlt
    have hstep := eggStep_waiting d s hav (by linarith)
    simp only [eggRun, hstep]
    have hrec := ih { s with eggTimer := s.eggTimer - d } hds hav
      (show ds.sum < s.eggTimer - d by linarith)
    rw [hrec]
    simp only [List.sum_cons]
    congr 1
    ring

theorem eggStep_window (d : ℚ) (s : EggState) (hav : s.eggsAvailable = true)
    (ht : 0 < s.eggAvailableTimer - d) :
    eggStep d s = { s with eggAvailableTimer := s.eggAvailableTimer - d } := by
  obtain ⟨av, t, w, c⟩ := s
  simp only at hav
  subst hav
  simp only at ht
  simp only [eggStep]
  rw [if_neg (by linarith)]

theorem eggRun_window (deltas : List ℚ) (s : EggState)
    (hpos : ∀ d ∈ deltas, 0 ≤ d) (hav : s.eggsAvailable = true)
    (hlt : deltas.sum < s.eggAvailableTimer) :
    eggRun deltas s = { s with eggAvailableTimer := s.eggAvailableTimer - deltas.sum } := by
  induction deltas generalizing s with
  | nil =>
    simp only [eggRun, List.sum_nil, sub_zero]
  | cons d ds ih =>
    have hd : 0 ≤ d := hpos d (by simp)
    have hds : ∀ x ∈ ds, 0 ≤ x := fun x hx => hpos x (by simp [hx])
    have hsum : 0 ≤ ds.sum := list_sum_nonneg ds hds
    have hlt1 : d + ds.sum < s.eggAvailableTimer := by simpa using hlt
    have hstep := eggStep_window d s hav (by linarith)
    simp only [eggRun, hstep]
    have hrec := ih { s with eggAvailableTimer := s.eggAvailableTimer - d } hds hav
      (show ds.sum < s.eggAvailableTimer - d by linarith)
    rw [hrec]
    simp only [List.sum_cons]
    congr 1
    ring

/-- C4: the egg cycle round-trips.  (i) While `eggsAvailable` is false the
delay just counts down; (ii) the frame on which the delay elapses flips
`eggsAvailable` to true and arms the 60 second collection window (the same
frame also begins consuming that window, so it leaves the frame at
`60 - delta`); (iii) while available the window just counts down; (iv) the
frame on which the window elapses returns `eggsAvailable` to false,
re-arms the 60 second delay, and resets every `collected` flag to false
regardless of how many were collected. -/
theorem egg_cycle_round_trip :
    (∀ (deltas : List ℚ) (s : EggState),
      (∀ d ∈ deltas, 0 ≤ d) → s.eggsAvailable = false → deltas.sum < s.eggTimer →
      eggRun deltas s = { s with eggTimer := s.eggTimer - deltas.sum }) ∧
    (∀ (d : ℚ) (s : EggState),
      s.eggsAvailable = false → s.eggTimer - d ≤ 0 → d < 60 →
      eggStep d s = { s with eggsAvailable := true, eggTimer := s.eggTimer - d,
                             eggAvailableTimer := 60 - d }) ∧
    (∀ (deltas : List ℚ) (s : EggState),
      (∀ d ∈ deltas, 0 ≤ d) → s.eggsAvailable = true →
      deltas.sum < s.eggAvailableTimer →
      eggRun deltas s = { s with eggAvailableTimer := s.eggAvailableTimer - deltas.sum }) ∧
    (∀ (d : ℚ) (s : EggState),
      s.eggsAvailable = true → s.eggAvailableTimer - d ≤ 0 →
      eggStep d s = { eggsAvailable := false, eggTimer := 60,
                      eggAvailableTimer := s.eggAvailableTimer - d,
                      collected := s.collected.map (fun _ => false) } ∧
      ∀ c ∈ (eggStep d s).collected, c = false) := by
  refine ⟨eggRun_waiting, ?_, eggRun_window, ?_⟩
  · intro d s hav ht hd
    obtain ⟨av, t, w, c⟩ := s
    simp only at hav
    subst hav
    simp only at ht
    simp only [eggStep]
    rw [if_pos ht, if_neg (show ¬ (60 - d ≤ 0) by linarith)]
  · intro d s hav ht
    obtain ⟨av, t, w, c⟩ := s
    simp only at hav
    subst hav
    simp only at ht
    have h : eggStep d ⟨true, t, w, c⟩ =
        { eggsAvailable := false, eggTimer := 60, eggAvailableTimer := w - d,
          collected := c.map (fun _ => false) } := by
      simp only [eggStep]
      rw [if_pos ht]
    refine ⟨h, ?_⟩
    rw [h]
    intro x hx
    simp only [List.mem_map] at hx
    obtain ⟨b, _, hb⟩ := hx
    exact hb.symm

/-- Witness for C4: with the configured 60 second delay, frames totalling
59 seconds leave eggs unavailable; the next 1 second frame makes them
available with a 59 second window left; 58 more seconds keep them
available; the next 2 second frame expires the window, re-arms the
60 second delay and clears both collected flags of the sample nests. -/
theorem egg_cycle_round_trip_witness :
    (eggRun [30, 29]
      { eggsAvailable := false, eggTimer := 60, eggAvailableTimer := 0,
        collected := [true, false] }).eggsAvailable = false ∧
    (eggStep 1
      { eggsAvailable := false, eggTimer := 1, eggAvailableTimer := 0,
        collected := [true, false] }) =
      { eggsAvailable := true, eggTimer := 0, eggAvailableTimer := 59,
        collected := [true, false] } ∧
    (eggRun [58]
      { eggsAvailable := true, eggTimer := 0, eggAvailableTimer := 59,
        collected := [true, false] }).eggsAvailable = true ∧
    (eggStep 2
      { eggsAvailable := true, eggTimer := 0, eggAvailableTimer := 1,
        collected := [true, true] }) =
      { eggsAvailable := false, eggTimer := 60, eggAvailableTimer := -1,
        collected := [false, false] } := by
  refine ⟨?_, ?_, ?_, ?_⟩
  · have h := egg_cycle_round_trip.1 [30, 29]
      { eggsAvailable := false, eggTimer := 60, eggAvailableTimer := 0,
        collected := [true, false] } (by norm_num) rfl (by norm_num)
    rw [h]
  · have h := egg_cycle_round_trip.2.1 1
      { eggsAvailable := false, eggTimer := 1, eggAvailableTimer := 0,
        collected := [true, false] } rfl (by norm_num) (by norm_num)
    rw [h]
    norm_num
  · have h := egg_cycle_round_trip.2.2.1 [58]
      { eggsAvailable := true, eggTimer := 0, eggAvailableTimer := 59,
        collected := [true, false] } (by norm_num) rfl (by norm_num)
    rw [h]
  · have h := (egg_cycle_round_trip.2.2.2 2
      { eggsAvailable := true, eggTimer := 0, eggAvailableTimer := 1,
        collected := [true, true] } rfl (by norm_num)).1
    rw [h]
    norm_num

/-! ## Bird status flags and the updates that write them
(game.js 1783-1800, 2404-2462, 2889-2923) -/

/-- Status flags of a `Bird` (game.js 1783-1787 and 1799). -/
structure BirdFlags where
  captured : Bool
  killed : Bool
  onVisitorHead : Bool
  visitingCoop : Bool
  attractedToVisitor : Bool
  deriving DecidableEq

/-- Number of the four exclusive-per-spec flags that are set. -/
def flagCount (b : BirdFlags) : ℕ :=
  (if b.captured then 1 else 0) + (if b.killed then 1 else 0) +
    (if b.onVisitorHead then 1 else 0) + (if b.visitingCoop then 1 else 0)

/-- The invariant claimed by the spec: at most one of
captured / killed / onVisitorHead / visitingCoop holds. -/
def exclusiveFlags (b : BirdFlags) : Prop :=
  flagCount b ≤ 1

instance (b : BirdFlags) : Decidable (exclusiveFlags b) := by
  unfold exclusiveFlags
  infer_instance

/-- Dog capture (game.js 2424-2432 target selection, 2458-2461 grab): the
hunting loop only considers birds with `captured = false`, and on range
contact (`nearestDist < 2.0`) sets `captured := true` — no other flag of
the target is consulted. -/
def dogCaptureStep (inRange : Bool) (b : BirdFlags) : BirdFlags :=
  if b.captured = false ∧ inRange = true then { b with captured := true } else b

/-- Hawk conversion at the 10 s stalk threshold (game.js 2452-2457) also
just sets `captured := true` on the locked target. -/
def hawkGrabTarget (b : BirdFlags) : BirdFlags :=
  { b with captured := true }

/-- Marking of the carried bird when the predator crosses the outer
boundary (game.js 2414-2417): `killed := true` while `captured` is left
set. -/
def killCarriedBird (b : BirdFlags) : BirdFlags :=
  { b with killed := true }

/-- Per-bird body of `Visitor.attractBirds` (game.js 2889-2923).
`dist2` is the squared distance from the bird to the gather position,
`attractionRange` is 20 when sitting else 12 (game.js 2874), `randOk`
embeds the 2 percent `Math.random()` draw and `headCount` the current
`birdsOnHead.length` (game.js 2907). -/
def attractBirdsStep (dist2 attractionRange : ℚ) (randOk : Bool)
    (headCount : ℕ) (b : BirdFlags) : BirdFlags :=
  if dist2 < attractionRange ^ 2 ∧ b.captured = false ∧ b.onVisitorHead = false then
    let b1 := { b with attractedToVisitor := true }
    if dist2 < 4 ∧ randOk = true ∧ headCount < 3 then
      { b1 with onVisitorHead := true }
    else b1
  else if b.attractedToVisitor = true ∧ attractionRange ^ 2 ≤ dist2 then
    { b with attractedToVisitor := false }
  else b

/-- A chicken mid coop-visit: only `visitingCoop` is set
(game.js 1899-1900 set `coopVisitState` and `visitingCoop := true`). -/
def coopVisitingBird : BirdFlags :=
  { captured := false, killed := false, onVisitorHead := false,
    visitingCoop := true, attractedToVisitor := false }

/-- Counterexample to C2: the predator capture update checks only
`captured` (game.js 2425), so a dog in range of a chicken that is
currently visiting the coop captures it, leaving `captured` and
`visitingCoop` set simultaneously — the claimed mutual exclusion is
violated by a per-frame update starting from a legal state. -/
theorem bird_flag_exclusion_cex :
    exclusiveFlags coopVisitingBird ∧
    dogCaptureStep true coopVisitingBird =
      { coopVisitingBird with captured := true } ∧
    ¬ exclusiveFlags (dogCaptureStep true coopVisitingBird) := by
  refine ⟨by decide, by decide, by decide⟩

/-- C2 amended: the exclusion actually enforced by the updates is partial.
A predator capture (dog grab or hawk threshold grab) fires only when the
target is not already `captured`, but consults no other flag, so
`captured` can come to coexist with `visitingCoop`; marking the carried
bird killed leaves `captured` set, so `killed` coexists with `captured`;
only the visitor perch update checks both `captured` and `onVisitorHead`,
so it never sets `onVisitorHead` on a captured, killed-carried or already
perched bird. -/
theorem bird_flag_exclusion_amended :
    (∀ (r : Bool) (b : BirdFlags), b.captured = true → dogCaptureStep r b = b) ∧
    (∀ (d2 ar : ℚ) (ro : Bool) (hc : ℕ) (b : BirdFlags),
      b.captured = true ∨ b.onVisitorHead = true →
      (attractBirdsStep d2 ar ro hc b).onVisitorHead = b.onVisitorHead) ∧
    (∀ b : BirdFlags,
      (killCarriedBird b).killed = true ∧ (killCarriedBird b).captured = b.captured) := by
  refine ⟨?_, ?_, ?_⟩
  · intro r b hb
    simp [dogCaptureStep, hb]
  · intro d2 ar ro hc b hb
    have hno : ¬ (d2 < ar ^ 2 ∧ b.captured = false ∧ b.onVisitorHead = false) := by
      rcases hb with h | h <;> simp [h]
    simp only [attractBirdsStep, if_neg hno]
    by_cases h2 : b.attractedToVisitor = true ∧ ar ^ 2 ≤ d2
    · simp [if_pos h2]
    · simp [if_neg h2]
  · intro b
    simp [killCarriedBird]

/-- Witness for the amended C2: a captured bird is ignored by the dog
grab; the perch update does not put a captured bird on the visitor head;
the kill mark keeps `captured` set. -/
theorem bird_flag_exclusion_amended_witness :
    dogCaptureStep true
      { captured := true, killed := false, onVisitorHead := false,
        visitingCoop := false, attractedToVisitor := false } =
      { captured := true, killed := false, onVisitorHead := false,
        visitingCoop := false, attractedToVisitor := false } ∧
    (attractBirdsStep 1 20 true 0
      { captured := true, killed := false, onVisitorHead := false,
        visitingCoop := false, attractedToVisitor := false }).onVisitorHead = false ∧
    (killCarriedBird
      { captured := true, killed := false, onVisitorHead := false,
        visitingCoop := false, attractedToVisitor := false }).captured = true := by
  refine ⟨?_, ?_, ?_⟩
  · exact bird_flag_exclusion_amended.1 true _ rfl
  · exact bird_flag_exclusion_amended.2.1 1 20 true 0 _ (Or.inl rfl)
  · exact (bird_flag_exclusion_amended.2.2 _).2

/-! ## Hawk stalking and capture (game.js 2434-2466) -/

/-- Hawk fields used while stalking (game.js 2326-2330): the locked
target, the accumulated capture timer, and the carried bird. -/
structure HawkStalk where
  targetBird : Option ℕ
  captureTimer : ℚ
  capturedBird : Option ℕ
  deriving DecidableEq

/-- One frame of the hawk hunting branch (game.js 2434-2466), reached when
the hawk is neither fleeing nor carrying and `nearest` (the closest bird
with `captured = false`) exists.  `inRange` is `nearestDist < 2.0`.  In
range the hawk locks the target if none is locked, hovers over it and
accumulates the timer; at the 10 second threshold it grabs (the returned
Bool reports that the target became captured, game.js 2452-2457).  Out of
range the lock and timer are cleared (game.js 2463-2466). -/
def hawkStalkStep (inRange : Bool) (nearest : ℕ) (delta : ℚ)
    (s : HawkStalk) : HawkStalk × Bool :=
  match inRange with
  | true =>
    let tgt := s.targetBird.getD nearest
    let t := s.captureTimer + delta
    if 10 ≤ t then
      ({ targetBird := none, captureTimer := 0, capturedBird := some tgt }, true)
    else
      ({ s with targetBird := some tgt, captureTimer := t }, false)
  | false =>
    ({ s with targetBird := none, captureTimer := 0 }, false)

/-- Frames of uninterrupted in-range stalking; once `capturedBird` is set
the hunting branch no longer runs (game.js 2388 takes the carrying branch
instead), so the run stops changing state. -/
def hawkStalkRun (deltas : List ℚ) (nearest : ℕ) (s : HawkStalk) : HawkStalk :=
  match deltas with
  | [] => s
  | d :: ds =>
    match s.capturedBird with
    | some _ => s
    | none => hawkStalkRun ds nearest (hawkStalkStep true nearest d s).1

theorem hawkStalkRun_carrying (deltas : List ℚ) (nearest : ℕ) (s : HawkStalk)
    (h : s.capturedBird.isSome) : hawkStalkRun deltas nearest s = s := by
  cases deltas with
  | nil => rfl
  | cons d ds =>
    cases hc : s.capturedBird with
    | none => rw [hc] at h; simp at h
    | some b => simp [hawkStalkRun, hc]

theorem hawkStalkRun_capture (deltas : List ℚ) (nearest : ℕ) (t : ℚ)
    (tgt : Option ℕ) (hpos : ∀ d ∈ deltas, 0 ≤ d)
    (htgt : tgt = none ∨ tgt = some nearest) :
    (hawkStalkRun deltas nearest ⟨tgt, t, none⟩).capturedBird =
      if 10 ≤ t + deltas.sum ∧ deltas ≠ [] then some nearest else none := by
  induction deltas generalizing t tgt with
  | nil => simp [hawkStalkRun]
  | cons d ds ih =>
    have hd : 0 ≤ d := hpos d (by simp)
    have hds : ∀ x ∈ ds, 0 ≤ x := fun x hx => hpos x (by simp [hx])
    have hsum : 0 ≤ ds.sum := list_sum_nonneg ds hds
    have hget : tgt.getD nearest = nearest := by
      rcases htgt with h | h <;> simp [h]
    by_cases hfire : 10 ≤ t + d
    · simp only [hawkStalkRun, hawkStalkStep, if_pos hfire, hget]
      rw [hawkStalkRun_carrying ds nearest _ (by simp)]
      simp only [List.sum_cons]
      have h2 : 10 ≤ t + (d + ds.sum) := by linarith
      simp [h2]
    · simp only [hawkStalkRun, hawkStalkStep, if_neg hfire, hget]
      have hrec := ih (t + d) (some nearest) hds (Or.inr rfl)
      rw [hrec]
      by_cases hds0 : ds = []
      · subst hds0
        have h1 : ¬ (10 ≤ t + d + ([] : List ℚ).sum ∧ ([] : List ℚ) ≠ []) := by simp
        have h2 : ¬ (10 ≤ t + ([d] : List ℚ).sum ∧ ([d] : List ℚ) ≠ []) := by
          simp only [List.sum_cons, List.sum_nil, ne_eq]
          intro hc
          have : t + (d + 0) = t + d := by ring
          rw [this] at hc
          exact hfire hc.1
        simp only [if_neg h1, if_neg h2]
      · have harith : t + d + ds.sum = t + (d :: ds).sum := by
          simp only [List.sum_cons]
          ring
        simp only [harith, ne_eq, hds0, not_false_eq_true, and_true, List.cons_ne_nil]

/-- C5: hawk stalking.  (i) Out of capture range the target lock is
cleared and the capture timer reset to 0; (ii) an in-range frame below the
threshold locks the nearest uncaptured bird (keeping an existing lock) and
accumulates the timer without capturing; (iii) over a run of uninterrupted
in-range frames starting unlocked with timer 0, the hawk ends carrying the
target exactly when the accumulated stalking time reaches 10 seconds. -/
theorem hawk_stalk_capture :
    (∀ (n : ℕ) (d : ℚ) (s : HawkStalk),
      hawkStalkStep false n d s =
        ({ s with targetBird := none, captureTimer := 0 }, false)) ∧
    (∀ (n : ℕ) (d : ℚ) (s : HawkStalk), s.captureTimer + d < 10 →
      hawkStalkStep true n d s =
        ({ s with targetBird := some (s.targetBird.getD n),
                  captureTimer := s.captureTimer + d }, false)) ∧
    (∀ (deltas : List ℚ) (n : ℕ), (∀ d ∈ deltas, 0 ≤ d) →
      (hawkStalkRun deltas n ⟨none, 0, none⟩).capturedBird =
        if 10 ≤ deltas.sum ∧ deltas ≠ [] then some n else none) := by
  refine ⟨fun n d s => rfl, ?_, ?_⟩
  · intro n d s hlt
    simp only [hawkStalkStep]
    rw [if_neg (by linarith)]
  · intro deltas n hpos
    have h := hawkStalkRun_capture deltas n 0 none hpos (Or.inl rfl)
    rw [h]
    simp

/-- Witness for C5: stalking frames of 6 s and 5 s reach the 10 s
threshold and capture bird 7; a 3 s in-range frame only locks and
accumulates; an out-of-range frame resets the lock and timer. -/
theorem hawk_stalk_capture_witness :
    (hawkStalkRun [6, 5] 7 ⟨none, 0, none⟩).capturedBird = some 7 ∧
    hawkStalkStep true 7 3 ⟨none, 0, none⟩ = (⟨some 7, 3, none⟩, false) ∧
    hawkStalkStep false 7 3 ⟨some 7, 9, none⟩ = (⟨none, 0, none⟩, false) := by
  refine ⟨?_, ?_, ?_⟩
  · have h := hawk_stalk_capture.2.2 [6, 5] 7 (by norm_num)
    rw [h, if_pos ⟨by norm_num, by simp⟩]
  · have h := hawk_stalk_capture.2.1 7 3 ⟨none, 0, none⟩ (by norm_num)
    rw [h]
    norm_num
  · exact hawk_stalk_capture.1 7 3 ⟨some 7, 9, none⟩

/-! ## Coop-exit egg tally (game.js 3605-3618 inside `toggleCoop`) -/

/-- Session fields written by the exit branch of `toggleCoop`
(game.js 585, 587, 589). -/
structure CoopTally where
  consecutiveEggCollections : ℕ
  score : ℤ
  eggBaskets : List ℕ
  deriving DecidableEq

/-- Exit branch of `toggleCoop` (game.js 3605-3618):
`eggsThisSession` is `eggsCollected - eggsAtVisitStart`; only when it is
positive is a basket recorded, the full-basket bonus considered and the
streak updated or reset. -/
def toggleCoopExit (eggsThisSession : ℕ) (s : CoopTally) : CoopTally :=
  if 0 < eggsThisSession then
    let s1 := { s with eggBaskets := s.eggBaskets ++ [eggsThisSession] }
    if eggsThisSession = 8 then
      { s1 with score := s1.score + 50,
                consecutiveEggCollections := s1.consecutiveEggCollections + 1 }
    else
      { s1 with consecutiveEggCollections := 0 }
  else s

/-- Counterexample to C6: a coop visit in which zero eggs were collected
is an incomplete visit (fewer than 8), yet the whole tally block is
guarded by `eggsThisSession > 0` (game.js 3607), so the streak counter is
left untouched instead of being reset to zero. -/
theorem full_basket_streak_cex :
    (toggleCoopExit 0
      { consecutiveEggCollections := 3, score := 0, eggBaskets := [] }) =
      { consecutiveEggCollections := 3, score := 0, eggBaskets := [] } ∧
    ¬ (toggleCoopExit 0
      { consecutiveEggCollections := 3, score := 0, eggBaskets := [] }).consecutiveEggCollections = 0 := by
  refine ⟨by decide, by decide⟩

/-- C6 amended: on exiting the coop, a visit that collected all 8 eggs
applies the 50 point full-basket bonus and increments the streak; a visit
that collected between 1 and 7 eggs resets the streak to zero without a
bonus; a visit that collected no egg leaves streak, score and baskets
unchanged. -/
theorem full_basket_streak_amended :
    (∀ s : CoopTally,
      toggleCoopExit 8 s =
        { consecutiveEggCollections := s.consecutiveEggCollections + 1,
          score := s.score + 50, eggBaskets := s.eggBaskets ++ [8] }) ∧
    (∀ (e : ℕ) (s : CoopTally), 0 < e → e ≠ 8 →
      toggleCoopExit e s =
        { consecutiveEggCollections := 0, score := s.score,
          eggBaskets := s.eggBaskets ++ [e] }) ∧
    (∀ s : CoopTally, toggleCoopExit 0 s = s) := by
  refine ⟨?_, ?_, ?_⟩
  · intro s
    simp [toggleCoopExit]
  · intro e s he hne
    simp [toggleCoopExit, he, hne]
  · intro s
    simp [toggleCoopExit]

/-- Witness for the amended C6: an 8-egg visit at streak 2 moves to
streak 3 and +50 score; a 5-egg visit resets the streak to 0 with no
score change. -/
theorem full_basket_streak_amended_witness :
    toggleCoopExit 8 { consecutiveEggCollections := 2, score := 10, eggBaskets := [] } =
      { consecutiveEggCollections := 3, score := 60, eggBaskets := [8] } ∧
    toggleCoopExit 5 { consecutiveEggCollections := 2, score := 10, eggBaskets := [] } =
      { consecutiveEggCollections := 0, score := 10, eggBaskets := [5] } := by
  constructor
  · exact full_basket_streak_amended.1
      { consecutiveEggCollections := 2, score := 10, eggBaskets := [] }
  · exact full_basket_streak_amended.2.1 5
      { consecutiveEggCollections := 2, score := 10, eggBaskets := [] }
      (by norm_num) (by norm_num)

/-! ## Scoring (game.js 3703-3716) -/

/-- A named score event: `addScore(points, reason)` carries a signed delta
and a reason string (game.js 3703). -/
structure ScoreEvent where
  delta : ℤ
  reason : String
  deriving DecidableEq

/-- Body of `addScore` (game.js 3704): the only statement in the whole
source that writes `gameState.score` (initialised to 0 at game.js 587);
every call site passes a delta and a reason.  The display and audio-cue
calls (game.js 3705-3715) do not touch the score. -/
def addScore (score : ℤ) (e : ScoreEvent) : ℤ :=
  score + e.delta

/-- A session is the list of score events emitted in order. -/
def applyScoreEvents (init : ℤ) (events : List ScoreEvent) : ℤ :=
  events.foldl addScore init

theorem applyScoreEvents_eq_add_sum (events : List ScoreEvent) (init : ℤ) :
    applyScoreEvents init events = init + (events.map ScoreEvent.delta).sum := by
  induction events generalizing init with
  | nil => simp [applyScoreEvents]
  | cons e es ih =>
    simp only [applyScoreEvents, List.foldl_cons, List.map_cons, List.sum_cons]
    have := ih (addScore init e)
    simp only [applyScoreEvents] at this
    rw [this]
    simp only [addScore]
    ring

/-- C7: the score is mutated only by applying named score events, and the
final score of a session equals the sum of all emitted deltas (the score
starts at 0, game.js 587). -/
theorem score_equals_sum_of_deltas :
    ∀ events : List ScoreEvent,
      applyScoreEvents 0 events = (events.map ScoreEvent.delta).sum ∧
      ∀ init : ℤ,
        applyScoreEvents init events = init + (events.map ScoreEvent.delta).sum := by
  intro events
  refine ⟨?_, fun init => applyScoreEvents_eq_add_sum events init⟩
  have := applyScoreEvents_eq_add_sum events 0
  simpa using this

/-! ## Bird danger check and flee cooldown (game.js 1823-1837, 1876-1893) -/

/-- Vector difference, the direction part of
`subVectors(a, b).normalize().multiplyScalar(k)`. -/
def subVec (p q : Vec3) : Vec3 :=
  ⟨p.x - q.x, p.y - q.y, p.z - q.z⟩

/-- Threat selection of game.js 1825-1836: the loop iterates the predator
roster in order and `break`s at the FIRST predator with `dist < 8`;
later, closer predators are never considered. -/
def firstThreat (birdPos : Vec3) (preds : List Vec3) : Option Vec3 :=
  match preds with
  | [] => none
  | p :: ps => if distSq birdPos p < 64 then some p else firstThreat birdPos ps

/-- Modelled from the spec: the claim says the velocity points away from
the NEAREST threatening predator, i.e. the minimum-distance predator
within the 8-unit alert radius.  This definition follows the spec words,
for comparison with `firstThreat` taken from the source. -/
def nearestThreatSpec (birdPos : Vec3) (preds : List Vec3) : Option Vec3 :=
  preds.foldl
    (fun acc p =>
      if distSq birdPos p < 64 then
        match acc with
        | none => some p
        | some q => if distSq birdPos p < distSq birdPos q then some p else some q
      else acc)
    none

/-- Scare fields written by the danger check (game.js 1824-1834).  The
velocity is stored as direction plus magnitude (the source computes
`away.normalize().multiplyScalar(speed * 2)`). -/
structure BirdScare where
  scared : Bool
  scaredTimer : ℚ
  velDir : Vec3
  velMag : ℚ
  deriving DecidableEq

/-- Danger check of game.js 1823-1837: `scared` is cleared, then the first
in-range predator sets `scared`, arms the 2 second cooldown and points the
velocity directly away from THAT predator at twice the base speed. -/
def dangerCheck (birdPos : Vec3) (speed : ℚ) (preds : List Vec3)
    (m : BirdScare) : BirdScare :=
  match firstThreat birdPos preds with
  | some p =>
    { scared := true, scaredTimer := 2, velDir := subVec birdPos p,
      velMag := speed * 2 }
  | none => { m with scared := false }

/-- Behaviour selected by the branch chain of game.js 1876-1893. -/
inductive BirdAct where
  | fleeCooldown
  | followVisitor
  | seekCorn
  | coopOrWander
  deriving DecidableEq

/-- Branch order of game.js 1876-1893: an active scared cooldown timer
wins, suppressing visitor attraction, corn seeking and coop visiting or
wandering until the timer has run out — not until the predator leaves
range. -/
def behaviorBranch (scaredTimer : ℚ) (attracted : Bool) (hasCorn : Bool) : BirdAct :=
  if 0 < scaredTimer then .fleeCooldown
  else if attracted = true then .followVisitor
  else if hasCorn = true then .seekCorn
  else .coopOrWander

/-- A bird with no active scare state. -/
def calmBird : BirdScare :=
  { scared := false, scaredTimer := 0, velDir := ⟨0, 0, 0⟩, velMag := 0 }

/-- Counterexample to C9: with predators at x = 7 (distance 7) and x = -3
(distance 3), both inside the 8-unit alert radius of a bird at the
origin, the code flees from the FIRST roster entry (x = 7, game.js 1835
`break`), not from the nearest (x = -3): the resulting flee direction has
negative x, while fleeing the nearest predator would give positive x. -/
theorem danger_flees_first_not_nearest_cex :
    firstThreat ⟨0, 0, 0⟩ [⟨7, 0, 0⟩, ⟨-3, 0, 0⟩] = some ⟨7, 0, 0⟩ ∧
    nearestThreatSpec ⟨0, 0, 0⟩ [⟨7, 0, 0⟩, ⟨-3, 0, 0⟩] = some ⟨-3, 0, 0⟩ ∧
    (dangerCheck ⟨0, 0, 0⟩ 2 [⟨7, 0, 0⟩, ⟨-3, 0, 0⟩] calmBird).velDir.x < 0 ∧
    0 < (subVec ⟨0, 0, 0⟩ (⟨-3, 0, 0⟩ : Vec3)).x := by
  refine ⟨?_, ?_, ?_, ?_⟩
  · norm_num [firstThreat, distSq]
  · norm_num [nearestThreatSpec, distSq]
  · norm_num [dangerCheck, firstThreat, distSq, subVec]
  · norm_num [subVec]

theorem firstThreat_first_in_range (pos : Vec3) (before : List Vec3) (p : Vec3)
    (rest : List Vec3) (hout : ∀ q ∈ before, ¬ distSq pos q < 64)
    (hin : distSq pos p < 64) :
    firstThreat pos (before ++ p :: rest) = some p := by
  induction before with
  | nil => simp [firstThreat, hin]
  | cons q qs ih =>
    have hq : ¬ distSq pos q < 64 := hout q (by simp)
    have hqs : ∀ r ∈ qs, ¬ distSq pos r < 64 := fun r hr => hout r (by simp [hr])
    simp only [List.cons_append, firstThreat, if_neg hq]
    exact ih hqs

/-- C9 amended: any predator within the 8-unit alert radius makes the bird
enter fleeing that frame, with velocity set directly away — at twice the
base speed — from the FIRST predator in roster order within the radius
(which is the nearest only when a single predator is in range), and the
2 second cooldown timer armed; while the cooldown timer is positive the
corn / coop / visitor behaviours are suppressed, rather than until the
predator leaves range. -/
theorem danger_check_amended :
    (∀ (pos : Vec3) (before : List Vec3) (p : Vec3) (rest : List Vec3),
      (∀ q ∈ before, ¬ distSq pos q < 64) → distSq pos p < 64 →
      firstThreat pos (before ++ p :: rest) = some p) ∧
    (∀ (pos : Vec3) (speed : ℚ) (preds : List Vec3) (m : BirdScare) (p : Vec3),
      firstThreat pos preds = some p →
      dangerCheck pos speed preds m =
        { scared := true, scaredTimer := 2, velDir := subVec pos p,
          velMag := speed * 2 }) ∧
    (∀ (t : ℚ) (att corn : Bool), 0 < t →
      behaviorBranch t att corn = .fleeCooldown) := by
  refine ⟨firstThreat_first_in_range, ?_, ?_⟩
  · intro pos speed preds m p hp
    simp [dangerCheck, hp]
  · intro t att corn ht
    simp [behaviorBranch, ht]

/-- Witness for the amended C9: the counterexample roster flees from the
first in-range predator at (7,0,0) with the 2 s cooldown armed and
magnitude twice the base speed 2; a positive cooldown suppresses corn and
visitor behaviour. -/
theorem danger_check_amended_witness :
    dangerCheck ⟨0, 0, 0⟩ 2 [⟨7, 0, 0⟩, ⟨-3, 0, 0⟩] calmBird =
      { scared := true, scaredTimer := 2, velDir := ⟨-7, 0, 0⟩, velMag := 4 } ∧
    behaviorBranch 2 true true = .fleeCooldown := by
  constructor
  · have h := danger_check_amended.2.1 ⟨0, 0, 0⟩ 2 [⟨7, 0, 0⟩, ⟨-3, 0, 0⟩]
      calmBird ⟨7, 0, 0⟩ (by norm_num [firstThreat, distSq])
    rw [h]
    norm_num [subVec]
  · exact danger_check_amended.2.2 2 true true (by norm_num)

/-! ## Player scare strike on predators (game.js 2335-2376) -/

/-- Predator fields involved in the player-scare block
(game.js 2318-2332 for initialisation: dog health 3, hawk health 2). -/
structure PredatorState where
  isFlying : Bool
  health : ℤ
  fleeing : Bool
  capturedBird : Option ℕ
  targetBird : Option ℕ
  captureTimer : ℚ
  deriving DecidableEq

/-- Species scare range of game.js 2339: 6 units for a flying predator,
4 for a ground one. -/
def scareRange (isFlying : Bool) : ℚ :=
  if isFlying then 6 else 4

/-- Strike body of game.js 2342-2366: enter fleeing, decrement health,
release the carried bird and clear a stalking lock. -/
def scareHit (p : PredatorState) : PredatorState :=
  let p1 := { p with fleeing := true, health := p.health - 1 }
  let p2 :=
    if p1.capturedBird.isSome then
      { p1 with capturedBird := none, captureTimer := 0 }
    else p1
  if p2.targetBird.isSome then
    { p2 with targetBird := none, captureTimer := 0 }
  else p2

/-- Player-scare block of `Predator.update` (game.js 2335-2376).  `d2` is
the squared distance to the player; `space` is the held state of the space
key — `keys` is a plain held-key map (game.js 3130 and 3163), so the test
re-fires on every frame while the key is held (level-triggered).  The
returned Bool is the removal signal of game.js 2369; game.js 2373-2375
clears `fleeing` again beyond distance 10. -/
def scareCheck (d2 : ℚ) (space : Bool) (p : PredatorState) : PredatorState × Bool :=
  if d2 < (scareRange p.isFlying) ^ 2 ∧ space = true then
    let ph := scareHit p
    if ph.health ≤ 0 then (ph, true)
    else (if 100 < d2 then { ph with fleeing := false } else ph, false)
  else
    (if 100 < d2 then { p with fleeing := false } else p, false)

/-- n consecutive frames with the space key held at squared distance `d2`;
a removal signal ends the run (the sweep at game.js 4058-4067 removes the
predator from the roster). -/
def scareRun (n : ℕ) (d2 : ℚ) (p : PredatorState) : PredatorState × Bool :=
  match n with
  | 0 => (p, false)
  | Nat.succ m =>
    let r := scareCheck d2 true p
    if r.2 then (r.1, true) else scareRun m d2 r.1

theorem scareHit_fields (p : PredatorState) :
    (scareHit p).health = p.health - 1 ∧ (scareHit p).fleeing = true ∧
    (scareHit p).isFlying = p.isFlying := by
  obtain ⟨f, h, fl, cb, tb, ct⟩ := p
  cases cb <;> cases tb <;> simp [scareHit]

theorem scareRange_sq_le (b : Bool) : (scareRange b) ^ 2 ≤ 36 := by
  cases b <;> simp [scareRange] <;> norm_num

theorem scareCheck_hit_eq (d2 : ℚ) (p : PredatorState)
    (hd : d2 < (scareRange p.isFlying) ^ 2) :
    scareCheck d2 true p = (scareHit p, decide ((scareHit p).health ≤ 0)) := by
  have hfar : ¬ 100 < d2 := by
    have := scareRange_sq_le p.isFlying
    linarith
  simp only [scareCheck]
  rw [if_pos (⟨hd, trivial⟩ : d2 < (scareRange p.isFlying) ^ 2 ∧ True)]
  by_cases hz : (scareHit p).health ≤ 0
  · rw [if_pos hz]
    simp [hz]
  · rw [if_neg hz, if_neg hfar]
    simp [hz]

theorem scareCheck_hit (d2 : ℚ) (p : PredatorState)
    (hd : d2 < (scareRange p.isFlying) ^ 2) :
    (scareCheck d2 true p).1.health = p.health - 1 ∧
    (scareCheck d2 true p).1.fleeing = true ∧
    (scareCheck d2 true p).1.isFlying = p.isFlying ∧
    ((scareCheck d2 true p).2 = true ↔ p.health - 1 ≤ 0) := by
  obtain ⟨hh, hf, hfl⟩ := scareHit_fields p
  rw [scareCheck_hit_eq d2 p hd]
  refine ⟨hh, hf, hfl, ?_⟩
  simp [hh]

theorem scareRun_defeats (n : ℕ) (d2 : ℚ) (p : PredatorState)
    (hd : d2 < (scareRange p.isFlying) ^ 2) (hh : p.health = (n : ℤ) + 1) :
    (scareRun (n + 1) d2 p).2 = true := by
  induction n generalizing p with
  | zero =>
    obtain ⟨h1, _, _, h4⟩ := scareCheck_hit d2 p hd
    have hsig : (scareCheck d2 true p).2 = true := by
      rw [h4, hh]
      norm_num
    simp [scareRun, hsig]
  | succ m ih =>
    obtain ⟨h1, _, h3, h4⟩ := scareCheck_hit d2 p hd
    have hnot : ¬ (scareCheck d2 true p).2 = true := by
      rw [h4, hh]
      push_cast
      intro hc
      have hm : (0 : ℤ) ≤ (m : ℤ) := Int.natCast_nonneg m
      linarith
    have hstep : (scareCheck d2 true p).1.health = (m : ℤ) + 1 := by
      rw [h1, hh]
      push_cast
      ring
    have hfly : d2 < (scareRange (scareCheck d2 true p).1.isFlying) ^ 2 := by
      rw [h3]
      exact hd
    simp only [scareRun]
    rw [if_neg (by simpa using hnot)]
    exact ih (scareCheck d2 true p).1 hfly hstep

/-- C10: the scare strike is level-triggered.  In every frame in which the
space key is held and the predator is within the species scare range
(6 units flying, 4 ground), the strike decrements health by exactly 1 and
sets the predator fleeing; the removal signal fires exactly when the
decremented health reaches 0, so holding the key for health-many
consecutive in-range frames removes a full-health predator. -/
theorem scare_strike_level_triggered :
    (∀ (d2 : ℚ) (p : PredatorState), d2 < (scareRange p.isFlying) ^ 2 →
      (scareCheck d2 true p).1.health = p.health - 1 ∧
      (scareCheck d2 true p).1.fleeing = true ∧
      ((scareCheck d2 true p).2 = true ↔ p.health - 1 ≤ 0)) ∧
    (∀ (n : ℕ) (d2 : ℚ) (p : PredatorState),
      d2 < (scareRange p.isFlying) ^ 2 → p.health = (n : ℤ) + 1 →
      (scareRun (n + 1) d2 p).2 = true) := by
  constructor
  · intro d2 p hd
    obtain ⟨h1, h2, _, h4⟩ := scareCheck_hit d2 p hd
    exact ⟨h1, h2, h4⟩
  · exact scareRun_defeats

/-- Witness for C10: a dog (ground predator, health 3) at squared distance
9 (3 units, inside the 4-unit range): one held frame leaves health 2 and
the dog fleeing; three consecutive held frames signal removal. -/
theorem scare_strike_level_triggered_witness :
    (scareCheck 9 true
      { isFlying := false, health := 3, fleeing := false, capturedBird := none,
        targetBird := none, captureTimer := 0 }).1.health = 2 ∧
    (scareRun 3 9
      { isFlying := false, health := 3, fleeing := false, capturedBird := none,
        targetBird := none, captureTimer := 0 }).2 = true := by
  constructor
  · have h := (scare_strike_level_triggered.1 9
      { isFlying := false, health := 3, fleeing := false, capturedBird := none,
        targetBird := none, captureTimer := 0 } (by norm_num [scareRange])).1
    rw [h]
    norm_num
  · exact scare_strike_level_triggered.2 2 9
      { isFlying := false, health := 3, fleeing := false, capturedBird := none,
        targetBird := none, captureTimer := 0 }
      (by norm_num [scareRange]) (by norm_num)

/-! ## Predator escape with prey and the removal sweep
(game.js 2388-2418, 4058-4068) -/

/-- Boundary test of the carrying branch (game.js 2408-2412) with the kill
mark and removal signal (game.js 2414-2417): past the hard boundary the
carried bird is marked killed and the predator signals removal. -/
def carryEscapeCheck (pos : Vec3) (carried : BirdFlags) : BirdFlags × Bool :=
  if pos.x < -32 ∨ 32 < pos.x ∨ pos.z < -32 ∨ 32 < pos.z then
    (killCarriedBird carried, true)
  else
    (carried, false)

/-- Removal sweep over the predator roster (game.js 4058-4068): every
predator whose `update` returned true is removed, `defeated` is
incremented and `addScore(20, ...)` is applied with the predator-scared
reason — the sweep does not distinguish WHY `update` returned true
(defeat at game.js 2369 or escape with prey at game.js 2417).  Returns
(surviving roster size, defeated counter, score); the source iterates in
reverse, which does not affect these totals. -/
def predatorSweep (outcomes : List Bool) (defeated : ℕ) (score : ℤ) : ℕ × ℕ × ℤ :=
  match outcomes with
  | [] => (0, defeated, score)
  | rem :: rest =>
    let r := predatorSweep rest defeated score
    if rem then (r.1, r.2.1 + 1, r.2.2 + 20) else (r.1 + 1, r.2.1, r.2.2)

/-- A bird held by a carrying predator: only `captured` is set. -/
def carriedOnlyBird : BirdFlags :=
  { captured := true, killed := false, onVisitorHead := false,
    visitingCoop := false, attractedToVisitor := false }

/-- C1 evaluated at the failing input: a predator at x = 33 carrying a
bird crosses the outer boundary, the bird is marked killed and the
predator signals removal (game.js 2414-2417); the removal sweep then
increments the `defeated` counter and applies the +20 score delta
(game.js 4063-4065) even though this removal is an escape with prey, not
a player defeat — contradicting the claim (and the reason string
`Predator scared away` the sweep attaches to the delta). -/
theorem predator_escape_gets_defeat_credit :
    (carryEscapeCheck ⟨33, 12, 0⟩ carriedOnlyBird).2 = true ∧
    (carryEscapeCheck ⟨33, 12, 0⟩ carriedOnlyBird).1.killed = true ∧
    predatorSweep [true] 0 0 = (0, 1, 20) := by
  refine ⟨?_, ?_, by decide⟩
  · norm_num [carryEscapeCheck, killCarriedBird, carriedOnlyBird]
  · norm_num [carryEscapeCheck, killCarriedBird, carriedOnlyBird]

/-! ## Session termination (game.js 3740-3915) -/

/-- Session-level fields of `gameState` read and written by `animate`
(game.js 562-592). -/
structure GState where
  started : Bool
  gameCompleted : Bool
  gameTime : ℚ
  maxGameTime : ℚ
  survivalTimer : ℚ
  score : ℤ
  chickens : ℕ
  ducks : ℕ
  defeated : ℕ
  ranAway : ℕ
  killed : ℕ
  eggsCollected : ℕ
  egg : EggState
  cornPiles : List ℚ
  predators : ℕ
  deriving DecidableEq

/-- Per-frame outcomes of the agent updates, abstracting `Bird.update`
and `Predator.update` (their internals are modelled separately above):
how many chickens and ducks signalled ran-away or were marked killed this
frame, and how many predators signalled removal. -/
structure FrameInput where
  delta : ℚ
  chickenRanAway : ℕ
  chickenKilled : ℕ
  duckRanAway : ℕ
  duckKilled : ℕ
  predatorsRemoved : ℕ
  deriving DecidableEq

/-- Completion bonus bundle of game.js 3782-3793. -/
def completionBonus (s : GState) : ℤ :=
  500 + (if s.chickens + s.ducks = 13 then 200 else 0)
      + (if 10 ≤ s.eggsCollected then 100 else 0)
      + (if s.killed = 0 then 200 else 0)

/-- State-relevant skeleton of one `animate` frame (game.js 3740-4146) in
source order: the `started` guard (3743-3746, rendering only), clock
accumulation (3748-3749), survival bonus (3751-3759), the completion
check with bonus and early return (3761-3805), the bird removal sweeps
(3852-3887; the ran-away counter increment happens inside `Bird.update`
but lands in the same frame), the failure check with early return
(3889-3915), corn pile expiry (3917-3926), the egg cycle (3947-3986) and
the predator removal sweep totals (4058-4068).  Player movement, camera,
spawn timers, the visitor, music and DOM updates are omitted: they do not
write any of these fields. -/
def frame (inp : FrameInput) (s : GState) : GState :=
  match s.started with
  | false => s
  | true =>
    let s1 : GState := { s with gameTime := s.gameTime + inp.delta }
    let s2 : GState :=
      let st := s1.survivalTimer + inp.delta
      if 60 ≤ st then
        if s1.chickens + s1.ducks = 13 then
          { s1 with survivalTimer := 0, score := s1.score + 25 }
        else
          { s1 with survivalTimer := 0 }
      else
        { s1 with survivalTimer := st }
    if s2.maxGameTime ≤ s2.gameTime ∧ s2.gameCompleted = false then
      { s2 with gameCompleted := true, started := false,
                score := s2.score + completionBonus s2 }
    else
      let s3 : GState := { s2 with
        chickens := s2.chickens - (inp.chickenRanAway + inp.chickenKilled),
        ducks := s2.ducks - (inp.duckRanAway + inp.duckKilled),
        killed := s2.killed + inp.chickenKilled + inp.duckKilled,
        ranAway := s2.ranAway + inp.chickenRanAway + inp.duckRanAway,
        score := s2.score - 100 * ((inp.chickenKilled : ℤ) + (inp.duckKilled : ℤ))
                          - 50 * ((inp.chickenRanAway : ℤ) + (inp.duckRanAway : ℤ)) }
      if s3.chickens = 0 ∧ s3.ducks = 0 ∧ s3.gameCompleted = false then
        { s3 with gameCompleted := true, started := false }
      else
        let s4 : GState := { s3 with
          cornPiles := (s3.cornPiles.map (fun t => t - inp.delta)).filter
            (fun t => 0 < t),
          egg := eggStep inp.delta s3.egg }
        { s4 with predators := s4.predators - inp.predatorsRemoved,
                  defeated := s4.defeated + inp.predatorsRemoved,
                  score := s4.score + 20 * (inp.predatorsRemoved : ℤ) }

/-- C8: session termination is one-shot.  (i) Once `started` is false —
which both terminal transitions force — a frame changes nothing at all:
no agent sweep, no score change, and the win/loss conditions (guarded
behind the `started` early return and the `gameCompleted` flag) cannot
re-fire bonuses or the end-of-session display.  (ii) An active,
non-terminal frame whose accumulated time reaches the budget sets
`gameCompleted` and clears `started`.  (iii) An active, non-terminal,
non-completing frame after whose bird sweep both rosters are empty sets
`gameCompleted` and clears `started`. -/
theorem session_termination_one_shot :
    (∀ (inp : FrameInput) (s : GState), s.started = false → frame inp s = s) ∧
    (∀ (inp : FrameInput) (s : GState),
      s.started = true → s.gameCompleted = false →
      s.maxGameTime ≤ s.gameTime + inp.delta →
      (frame inp s).gameCompleted = true ∧ (frame inp s).started = false) ∧
    (∀ (inp : FrameInput) (s : GState),
      s.started = true → s.gameCompleted = false →
      s.chickens - (inp.chickenRanAway + inp.chickenKilled) = 0 →
      s.ducks - (inp.duckRanAway + inp.duckKilled) = 0 →
      (frame inp s).gameCompleted = true ∧ (frame inp s).started = false) := by
  refine ⟨?_, ?_, ?_⟩
  · intro inp s hs
    obtain ⟨st, gc, gt, mx, sv, sc, ch, du, de, ra, ki, eg, es, cp, pr⟩ := s
    simp only at hs
    subst hs
    rfl
  · intro inp s hs hc ht
    obtain ⟨st, gc, gt, mx, sv, sc, ch, du, de, ra, ki, eg, es, cp, pr⟩ := s
    simp only at hs hc ht
    subst hs
    subst hc
    simp only [frame]
    split_ifs with h1 h2 h3 h3 <;> simp_all
  · intro inp s hs hc hch hdu
    obtain ⟨st, gc, gt, mx, sv, sc, ch, du, de, ra, ki, eg, es, cp, pr⟩ := s
    simp only at hs hc hch hdu
    subst hs
    subst hc
    simp only [frame]
    split_ifs with h1 h2 h3 h3 h4 h5 h6 h7 <;> simp_all

/-- Witness for C8: a terminated session state is fixed by a frame; an
active state at 59 of 60 seconds completes on a 2 second frame; an active
state whose last chicken is killed this frame fails. -/
theorem session_termination_one_shot_witness :
    frame
      { delta := 1, chickenRanAway := 0, chickenKilled := 0, duckRanAway := 0,
        duckKilled := 0, predatorsRemoved := 1 }
      { started := false, gameCompleted := true, gameTime := 600,
        maxGameTime := 600, survivalTimer := 0, score := 700, chickens := 13,
        ducks := 0, defeated := 2, ranAway := 0, killed := 0,
        eggsCollected := 12,
        egg := { eggsAvailable := false, eggTimer := 60,
                 eggAvailableTimer := 0, collected := [] },
        cornPiles := [], predators := 1 } =
      { started := false, gameCompleted := true, gameTime := 600,
        maxGameTime := 600, survivalTimer := 0, score := 700, chickens := 13,
        ducks := 0, defeated := 2, ranAway := 0, killed := 0,
        eggsCollected := 12,
        egg := { eggsAvailable := false, eggTimer := 60,
                 eggAvailableTimer := 0, collected := [] },
        cornPiles := [], predators := 1 } ∧
    ((frame
      { delta := 2, chickenRanAway := 0, chickenKilled := 0, duckRanAway := 0,
        duckKilled := 0, predatorsRemoved := 0 }
      { started := true, gameCompleted := false, gameTime := 599,
        maxGameTime := 600, survivalTimer := 0, score := 0, chickens := 8,
        ducks := 5, defeated := 0, ranAway := 0, killed := 0,
        eggsCollected := 0,
        egg := { eggsAvailable := false, eggTimer := 60,
                 eggAvailableTimer := 0, collected := [] },
        cornPiles := [], predators := 0 }).gameCompleted = true ∧
     (frame
      { delta := 2, chickenRanAway := 0, chickenKilled := 0, duckRanAway := 0,
        duckKilled := 0, predatorsRemoved := 0 }
      { started := true, gameCompleted := false, gameTime := 599,
        maxGameTime := 600, survivalTimer := 0, score := 0, chickens := 8,
        ducks := 5, defeated := 0, ranAway := 0, killed := 0,
        eggsCollected := 0,
        egg := { eggsAvailable := false, eggTimer := 60,
                 eggAvailableTimer := 0, collected := [] },
        cornPiles := [], predators := 0 }).started = false) ∧
    ((frame
      { delta := 1, chickenRanAway := 0, chickenKilled := 1, duckRanAway := 0,
        duckKilled := 0, predatorsRemoved := 0 }
      { started := true, gameCompleted := false, gameTime := 30,
        maxGameTime := 600, survivalTimer := 0, score := 0, chickens := 1,
        ducks := 0, defeated := 0, ranAway := 0, killed := 0,
        eggsCollected := 0,
        egg := { eggsAvailable := false, eggTimer := 60,
                 eggAvailableTimer := 0, collected := [] },
        cornPiles := [], predators := 0 }).gameCompleted = true ∧
     (frame
      { delta := 1, chickenRanAway := 0, chickenKilled := 1, duckRanAway := 0,
        duckKilled := 0, predatorsRemoved := 0 }
      { started := true, gameCompleted := false, gameTime := 30,
        maxGameTime := 600, survivalTimer := 0, score := 0, chickens := 1,
        ducks := 0, defeated := 0, ranAway := 0, killed := 0,
        eggsCollected := 0,
        egg := { eggsAvailable := false, eggTimer := 60,
                 eggAvailableTimer := 0, collected := [] },
        cornPiles := [], predators := 0 }).started = false) := by
  refine ⟨?_, ?_, ?_⟩
  · exact session_termination_one_shot.1 _ _ rfl
  · exact session_termination_one_shot.2.1 _ _ rfl rfl (by norm_num)
  · exact session_termination_one_shot.2.2 _ _ rfl rfl (by norm_num) (by norm_num)

end PoultryPatrol
